import Mathlib

/-!
Shallow embedding of `hutch_python/utils.py` and `hutch_python/base_plugin.py`.

Python's dynamic features are embedded as follows:
* exceptions become an explicit `PyError` value threaded through `Except`;
* the interpreter state needed by the resolver (the importable modules, the
  names visible to `eval`, and the behaviour of calling an object) is an
  explicit environment record `PyEnv`, universally quantified in theorems;
* a Python module is its attribute table plus its optional `__all__` list and
  its `dir()` listing;
* `dict`s appear as association lists in insertion order (Python dicts
  preserve insertion order; updating an existing key keeps its position);
* logging calls become an explicit list of emitted `LogEvent`s.
-/

/-- Python exceptions distinguished by the code under study: `NameError`
(raised by `eval` on an undefined bare name), `ImportError` (the one class
`extract_objs` catches to trigger its fallback), `AttributeError` (raised by
`getattr` on a missing attribute), and a catch-all for any other exception. -/
inductive PyError where
  | nameError (n : String)
  | importError (m : String)
  | attributeError (m : String) (a : String)
  | otherError (m : String)
deriving DecidableEq

/-- A Python module as seen by the code: its attribute table (`getattr`),
its `__all__` attribute when present, and its `dir()` listing. -/
structure PyModule (α : Type) where
  attrs : String → Option α
  all : Option (List String)
  dirNames : List String

/-- The interpreter state the resolver interacts with: `modules` is
`importlib.import_module` (success, `ImportError`, or any other exception
raised while executing the module), `call` is zero-argument invocation of an
object, and `evalName` is lookup of a bare name in the `eval` context
(`none` models the `NameError` raised for an undefined name). -/
structure PyEnv (α : Type) where
  modules : String → Except PyError (PyModule α)
  call : α → Except PyError α
  evalName : String → Option α

/-- `SUCCESS_LEVEL = 35` from `utils.py`. -/
def SUCCESS_LEVEL : Nat := 35

/-- `logging.INFO` of the host logging system. -/
def logging_INFO : Nat := 20

/-- `logging.WARNING` of the host logging system. -/
def logging_WARNING : Nat := 30

/-- `logging.ERROR` of the host logging system. -/
def logging_ERROR : Nat := 40

/-- One record written to the process-wide logging sink. -/
inductive LogEvent where
  | info (msg : String)
  | success (msg : String)
  | error (msg : String)
deriving DecidableEq

/-- The `identifier` computed at the top of `safe_load`:
`name` when `cls is None`, else `' '.join((name, str(cls)))`.
`cls` is carried as the already-stringified label. -/
def identifier (name : String) (cls : Option String) : String :=
  match cls with
  | none => name
  | some c => name ++ " " ++ c

/-- `safe_load(name, cls)` from `utils.py`, applied to a body that either
completes (`Except.ok`) or raises (`Except.error`).  The context manager's
observable behaviour is the log records it emits; in both cases it returns
normally to its caller (the function is total), which is the "swallows the
failure" semantics of the bare `except Exception` clause. -/
def safe_load (ε : Type) (name : String) (cls : Option String)
    (body : Except ε Unit) : List LogEvent :=
  LogEvent.info ("Loading " ++ identifier name cls ++ "...") ::
    match body with
    | .ok _ => [LogEvent.success ("Successfully loaded " ++ identifier name cls)]
    | .error _ => [LogEvent.error ("Failed to load " ++ identifier name cls)]

/-- `setattr` on a `SimpleNamespace`, i.e. assignment into its `__dict__`:
an existing key is updated in place (keeping its insertion position), a new
key is appended. -/
def setAttr {α : Type} (ns : List (String × α)) (k : String) (v : α) :
    List (String × α) :=
  match ns with
  | [] => [(k, v)]
  | (k', v') :: rest => if k' = k then (k, v) :: rest else (k', v') :: setAttr rest k v

/-- A namespace built by performing the given attribute assignments in
order, starting from an empty `__dict__`. -/
def buildNs {α : Type} (l : List (String × α)) : List (String × α) :=
  l.foldl (fun ns p => setAttr ns p.1 p.2) []

/-- `sorted(self.__dict__.items())` from `IterableNamespace.__iter__`.
Python sorts the `(key, value)` tuples; since dict keys are distinct the
comparison is decided by the keys alone, so we sort by key.  (With equal
keys Python would go on to compare the values, but a dict never has equal
keys.) -/
def sortByKey {α : Type} (l : List (String × α)) : List (String × α) :=
  List.insertionSort (fun p q : String × α => p.1 ≤ q.1) l

instance {α : Type} : IsTotal (String × α) (fun p q => p.1 ≤ q.1) :=
  ⟨fun p q => le_total p.1 q.1⟩

instance {α : Type} : IsTrans (String × α) (fun p q => p.1 ≤ q.1) :=
  ⟨fun _ _ _ h₁ h₂ => le_trans h₁ h₂⟩

/-- `IterableNamespace.__iter__` from `utils.py`: yield the objects (values,
not key-value pairs) of the sorted `__dict__` items. -/
def IterableNamespace.iter {α : Type} (ns : List (String × α)) : List α :=
  (sortByKey ns).map Prod.snd

/-- Python's `c in s` membership test on a string. -/
def strContains (s : String) (c : Char) : Bool :=
  s.data.contains c

/-- Python's `s.split(sep)` for a one-character separator, on the character
list: splitting the empty text yields one empty group, and every occurrence
of the separator starts a new group. -/
def pySplit (sep : Char) : List Char → List (List Char)
  | [] => [[]]
  | c :: rest =>
    match pySplit sep rest with
    | [] => [[]]
    | grp :: groups => if c = sep then [] :: grp :: groups else (c :: grp) :: groups

/-- `obj_path.split('.')` as a list of strings. -/
def splitDot (s : String) : List String :=
  (pySplit '.' s.data).map String.mk

/-- Python's `'.'.join(parts)`. -/
def joinDot : List String → String
  | [] => ""
  | [p] => p
  | p :: q :: rest => p ++ "." ++ joinDot (q :: rest)

/-- Python's `s[:-n]` for `n > 0`: all but the last `n` characters. -/
def pyDropRight (s : String) (n : Nat) : String :=
  String.mk (s.data.take (s.data.length - n))

/-- Python's `s.endswith(suffix)`: `suffix` is a suffix of `s`, tested on the
reversed character lists. -/
def pyEndsWith (s suffix : String) : Bool :=
  suffix.data.reverse.isPrefixOf s.data.reverse

/-- The suffix handling at the top of `extract_objs`:
`if module_name.endswith('.py'): module_name = module_name[:-3]`
`elif module_name.endswith('()'): module_name = module_name[:-2]; call_me = True`
`else: call_me = False`.
The second component is the state of the local `call_me` afterwards; `none`
models the `.py` branch, in which `call_me` is left unbound (referencing it
later raises `UnboundLocalError`). -/
def stripSpec (module_name : String) : String × Option Bool :=
  if pyEndsWith module_name ".py" then (pyDropRight module_name 3, none)
  else if pyEndsWith module_name "()" then (pyDropRight module_name 2, some true)
  else (module_name, some false)

/-- `find_object(obj_path)` from `utils.py`: split on `'.'`, import the
joined init segment, and take the final attribute.  Both the import error
and the attribute error propagate (there is no handler here). -/
def find_object {α : Type} (env : PyEnv α) (obj_path : String) :
    Except PyError α :=
  let parts := splitDot obj_path
  let module_path := joinDot parts.dropLast
  let class_name := parts.getLastD ""
  match env.modules module_path with
  | .error e => .error e
  | .ok m =>
    match m.attrs class_name with
    | some o => .ok o
    | none => .error (.attributeError module_path class_name)

/-- `CLASS_SEARCH_PATH` from `utils.py`. -/
def CLASS_SEARCH_PATH : List String := ["pcdsdevices.device_types"]

/-- The body of the `try` in `find_class`: `find_object(class_path)` when the
path is dotted, else `eval(class_path)` (modelled as a lookup in the `eval`
context, `NameError` when absent). -/
def find_class_core {α : Type} (env : PyEnv α) (class_path : String) :
    Except PyError α :=
  if strContains class_path '.' then find_object env class_path
  else
    match env.evalName class_path with
    | some o => .ok o
    | none => .error (.nameError class_path)

/-- The `for default in CLASS_SEARCH_PATH` loop in `find_class`: each
iteration retries with the prefixed path and `check_defaults=False`
(which is exactly `find_class_core`, see `find_class_false`), a `NameError`
moves on to the next entry, any other exception propagates, and exhausting
the list re-raises the originally caught `NameError` (`orig`). -/
def searchDefaults {α : Type} (env : PyEnv α) (class_path : String)
    (orig : PyError) : List String → Except PyError α
  | [] => .error orig
  | d :: rest =>
    match find_class_core env (d ++ "." ++ class_path) with
    | .ok o => .ok o
    | .error (.nameError _) => searchDefaults env class_path orig rest
    | .error e => .error e

/-- `find_class(class_path, check_defaults)` from `utils.py`.  Only a
`NameError` from the try body reaches the `except NameError` handler; there
the default search path is consulted when `check_defaults` is true, and the
original `NameError` is re-raised (`raise`) when it yields nothing. -/
def find_class {α : Type} (env : PyEnv α) (class_path : String)
    (check_defaults : Bool) : Except PyError α :=
  match find_class_core env class_path with
  | .ok o => .ok o
  | .error (.nameError n) =>
    if check_defaults then searchDefaults env class_path (.nameError n) CLASS_SEARCH_PATH
    else .error (.nameError n)
  | .error e => .error e

/-- The `for attr in all_kwd: objs[attr] = getattr(module, attr)` loop at the
end of `extract_objs`.  It runs outside any `try` block: the first missing
attribute raises an `AttributeError` that escapes `extract_objs`. -/
def getAttrs {α : Type} (m : PyModule α) (mod_name : String) :
    List String → Except PyError (List (String × α))
  | [] => .ok []
  | a :: rest =>
    match m.attrs a with
    | none => .error (.attributeError mod_name a)
    | some v =>
      match getAttrs m mod_name rest with
      | .ok l => .ok ((a, v) :: l)
      | .error e => .error e

/-- `all_kwd` in `extract_objs`: the module's `__all__` when present, else
`[a for a in dir(module) if a[0] != '_']`.  (`dir()` yields nonempty
identifier strings, for which `a[0] != '_'` is the `front` test.) -/
def effectiveAll {α : Type} (m : PyModule α) : List String :=
  match m.all with
  | some l => l
  | none => m.dirNames.filter (fun a => a.front ≠ '_')

/-- `extract_objs(module_name)` from `utils.py`.  The outer
`except Exception` converts any exception raised inside its `try` — a
non-`ImportError` import failure, or anything raised in the `ImportError`
fallback (`find_object`, the unbound `call_me` of the `.py` branch, or the
zero-argument call) — into `return objs` with `objs` still empty.  The
attribute-extraction loop after the `try` block is not protected: its
errors escape as `Except.error`. -/
def extract_objs {α : Type} (env : PyEnv α) (module_name : String) :
    Except PyError (List (String × α)) :=
  match env.modules (stripSpec module_name).1 with
  | .ok module => getAttrs module (stripSpec module_name).1 (effectiveAll module)
  | .error (.importError _) =>
    match find_object env (stripSpec module_name).1 with
    | .error _ => .ok []
    | .ok my_obj =>
      match (stripSpec module_name).2 with
      | none => .ok []
      | some true =>
        match env.call my_obj with
        | .ok r => .ok [((splitDot (stripSpec module_name).1).getLastD "", r)]
        | .error _ => .ok []
      | some false => .ok [((splitDot (stripSpec module_name).1).getLastD "", my_obj)]
  | .error _ => .ok []

/-- The `Plugin` base class of `base_plugin.py`, seen as a record of its
overridable members.  `get_objects` and `future_object_hook` take the stored
`info` payload explicitly; `future_object_hook` acts on an abstract observer
state `σ` so that overriding implementations can be modelled. -/
structure Plugin (ι α σ : Type) where
  priority : Int
  get_objects : ι → Option (List (String × α))
  future_object_hook : ι → String → α → σ → σ

/-- The base class itself, with the default member implementations of
`base_plugin.py`: `priority = 0`, both method bodies are `pass` (so
`get_objects` returns `None` and `future_object_hook` leaves the world
unchanged). -/
def Plugin.base (ι α σ : Type) : Plugin ι α σ :=
  ⟨0, fun _ => none, fun _ _ _ s => s⟩

/-- The default `Plugin.future_plugin_hook(source, objs)`:
`for key, value in objs.items(): self.future_object_hook(key, value)`.
It is inherited by any plugin that overrides only `future_object_hook`. -/
def Plugin.future_plugin_hook {ι α σ : Type} (P : Plugin ι α σ) (info : ι)
    (source : String) (objs : List (String × α)) (s : σ) : σ :=
  objs.foldl (fun st kv => P.future_object_hook info kv.1 kv.2 st) s

/-- A plugin whose `future_object_hook` override records each call it
receives, used to observe exactly what the default `future_plugin_hook`
does. -/
def recorder (ι α : Type) : Plugin ι α (List (String × α)) :=
  ⟨0, fun _ => none, fun _ k v s => s ++ [(k, v)]⟩

/-- A module with `__all__ = ["x"]` that has no attributes at all: `getattr`
fails on every name. -/
def mBadAll : PyModule Nat :=
  ⟨fun _ => none, some ["x"], []⟩

/-- An interpreter state in which only module `"m"` is importable, and it is
`mBadAll`. -/
def envBadAll : PyEnv Nat :=
  ⟨fun s => if s = "m" then .ok mBadAll else .error (.importError s),
   fun o => .ok o, fun _ => none⟩

/-- A module exposing attribute `Device = 7`. -/
def mDevice : PyModule Nat :=
  ⟨fun a => if a = "Device" then some 7 else none, none, ["Device"]⟩

/-- An interpreter state in which no bare name is defined, and the default
search-path module `pcdsdevices.device_types` is importable and exposes
`Device`. -/
def envDevice : PyEnv Nat :=
  ⟨fun s => if s = "pcdsdevices.device_types" then .ok mDevice
            else .error (.importError s),
   fun o => .ok o, fun _ => none⟩

/-- An interpreter state in which no bare name is defined and
`pcdsdevices.device_types` is importable but has no attributes. -/
def envEmptyDefaults : PyEnv Nat :=
  ⟨fun s => if s = "pcdsdevices.device_types" then .ok ⟨fun _ => none, none, []⟩
            else .error (.importError s),
   fun o => .ok o, fun _ => none⟩

/-- A module with `__all__ = ["x"]`, attributes `x = 1` and `y = 2`. -/
def mPkgMod : PyModule Nat :=
  ⟨fun a => if a = "x" then some 1 else if a = "y" then some 2 else none,
   some ["x"], ["x", "y"]⟩

/-- An interpreter state in which only `pkg.mod` is importable, as
`mPkgMod`. -/
def envPkgMod : PyEnv Nat :=
  ⟨fun s => if s = "pkg.mod" then .ok mPkgMod else .error (.importError s),
   fun o => .ok o, fun _ => none⟩

/-- A module exposing a zero-argument callable `thing` (as the object `5`). -/
def mThing : PyModule Nat :=
  ⟨fun a => if a = "thing" then some 5 else none, none, ["thing"]⟩

/-- An interpreter state in which `pkg.mod` is importable (as `mThing`),
`pkg.mod.thing` is not importable, and calling an object replaces it by its
successor — so a call result is distinguishable from the callee. -/
def envThing : PyEnv Nat :=
  ⟨fun s => if s = "pkg.mod" then .ok mThing else .error (.importError s),
   fun o => .ok (o + 1), fun _ => none⟩

/-- `find_class` with `check_defaults=False` is exactly the try body:
the handler only re-raises. -/
theorem find_class_false {α : Type} (env : PyEnv α) (p : String) :
    find_class env p false = find_class_core env p := by
  unfold find_class
  cases h : find_class_core env p with
  | ok o => rfl
  | error e => cases e <;> rfl

/-- Claim C3 counterexample: the custom SUCCESS severity is not strictly
between the informational severity (20) and the warning severity (30) —
`SUCCESS_LEVEL` is 35. -/
theorem success_level_cex :
    ¬ (logging_INFO < SUCCESS_LEVEL ∧ SUCCESS_LEVEL < logging_WARNING) := by
  decide

/-- Claim C3 (amended): the custom SUCCESS severity (35) is positioned
strictly between the warning severity (30) and the error severity (40) of
the host logging system, and in particular above the informational
severity (20). -/
theorem success_level_between :
    logging_WARNING < SUCCESS_LEVEL ∧ SUCCESS_LEVEL < logging_ERROR ∧
      logging_INFO < SUCCESS_LEVEL := by
  decide

/-- Claim C7: for every unit of work run inside `safe_load`, a SUCCESS-level
record is emitted if and only if the body completed without raising, an
error record is emitted if and only if the body raised, and every error
record names the unit (`Failed to load` followed by the identifier built
from `name`).  `safe_load` returns a log in every case — the failure is
swallowed and the caller continues. -/
theorem safe_load_reports (ε : Type) (name : String) (cls : Option String)
    (body : Except ε Unit) :
    ((∃ m, LogEvent.success m ∈ safe_load ε name cls body) ↔ (∃ u, body = .ok u))
    ∧ ((∃ m, LogEvent.error m ∈ safe_load ε name cls body) ↔ (∃ e, body = .error e))
    ∧ (∀ m, LogEvent.error m ∈ safe_load ε name cls body →
        m = "Failed to load " ++ identifier name cls) := by
  cases body <;> simp [safe_load]

/-- Claim C8: the default `future_plugin_hook` of a plugin that does not
override it forwards each entry of `objs` to `future_object_hook` exactly
once, in order, with that entry's name and object, and does nothing else
(the recording observer ends up with exactly the entries of `objs`); it is
a fold of `future_object_hook` over the entries and is independent of the
`source` argument. -/
theorem future_plugin_hook_forwards (ι α σ : Type) (P : Plugin ι α σ) (i : ι)
    (src src' : String) (objs : List (String × α)) (st : σ) :
    (recorder ι α).future_plugin_hook i src objs [] = objs
    ∧ P.future_plugin_hook i src objs st =
        objs.foldl (fun s kv => P.future_object_hook i kv.1 kv.2 s) st
    ∧ P.future_plugin_hook i src objs st = P.future_plugin_hook i src' objs st := by
  refine ⟨?_, rfl, rfl⟩
  have aux : ∀ (l acc : List (String × α)),
      l.foldl (fun s kv => s ++ [(kv.1, kv.2)]) acc = acc ++ l := by
    intro l
    induction l with
    | nil => intro acc; simp
    | cons p t ih => intro acc; simp [List.foldl_cons, ih]
  simpa [Plugin.future_plugin_hook, recorder] using aux objs []

/-- Claim C9: the default `Plugin.get_objects` (whose body is `pass`)
returns `None` — not an empty mapping — so a plugin that does not override
it does not produce an empty dict. -/
theorem get_objects_default_none (ι α σ : Type) (i : ι) :
    (Plugin.base ι α σ).get_objects i = none
    ∧ (Plugin.base ι α σ).get_objects i ≠ some [] := by
  exact ⟨rfl, by simp [Plugin.base]⟩

/-- Claim C1 (amended): for a bare (non-dotted) class name undefined in the
evaluation context, `find_class` with `check_defaults=True` retries the name
prefixed with the single entry of the default namespace list
(`CLASS_SEARCH_PATH = ["pcdsdevices.device_types"]`), recursing with
`check_defaults=False`, and returns its first success.  On failure an error
propagates rather than being swallowed: when the default attempt fails with
an undefined-name error the original undefined-name error is re-raised,
while an import or attribute error from the default attempt propagates as
is. -/
theorem find_class_default_search (α : Type) (env : PyEnv α) (class_path : String)
    (hbare : strContains class_path '.' = false)
    (hundef : env.evalName class_path = none) :
    find_class env class_path true =
      (match find_class env ("pcdsdevices.device_types." ++ class_path) false with
       | .ok o => .ok o
       | .error (.nameError _) => .error (.nameError class_path)
       | .error e => .error e)
    ∧ CLASS_SEARCH_PATH = ["pcdsdevices.device_types"] := by
  refine ⟨?_, rfl⟩
  have hap : ("pcdsdevices.device_types" : String) ++ "." ++ class_path =
      "pcdsdevices.device_types." ++ class_path := rfl
  rw [find_class_false]
  have hcore : find_class_core env class_path = .error (.nameError class_path) := by
    unfold find_class_core
    rw [hbare, hundef]
    rfl
  unfold find_class
  rw [hcore]
  show searchDefaults env class_path (.nameError class_path) CLASS_SEARCH_PATH = _
  unfold CLASS_SEARCH_PATH searchDefaults
  rw [hap]
  cases h : find_class_core env ("pcdsdevices.device_types." ++ class_path) with
  | ok o => rfl
  | error e => cases e <;> rfl

/-- Claim C1 witness: in `envDevice`, where `Device` is undefined as a bare
name but `pcdsdevices.device_types.Device` exists, `find_class` returns that
object. -/
theorem find_class_default_search_witness :
    find_class envDevice "Device" true = .ok 7 := by
  have h := (find_class_default_search Nat envDevice "Device" (by rfl) rfl).1
  rw [h]
  rfl

/-- Claim C1 counterexample: in `envEmptyDefaults` the bare name
`NoSuchThing` is undefined and no default namespace yields a match, yet the
error that propagates is the `AttributeError` raised by the default-path
lookup, not the undefined-name (`NameError`) error the claim promises. -/
theorem find_class_default_search_cex :
    find_class envEmptyDefaults "NoSuchThing" true =
      .error (.attributeError "pcdsdevices.device_types" "NoSuchThing")
    ∧ find_class envEmptyDefaults "NoSuchThing" true ≠
      .error (.nameError "NoSuchThing") := by
  constructor
  · rfl
  · intro hc
    rw [(rfl : find_class envEmptyDefaults "NoSuchThing" true =
      .error (.attributeError "pcdsdevices.device_types" "NoSuchThing"))] at hc
    exact PyError.noConfusion (Except.error.inj hc)

/-- A specifier ending in `'()'` does not end in `'.py'`: its last character
is `')'`, not `'y'`.  (This is why in `stripSpec` reaching the `'()'` branch
is the same as the `elif` of the source.) -/
theorem parens_not_py (s : String) (h : pyEndsWith s "()" = true) :
    pyEndsWith s ".py" = false := by
  unfold pyEndsWith at h ⊢
  have h1 : (String.data "()").reverse = [')', '('] := rfl
  have h2 : (String.data ".py").reverse = ['y', 'p', '.'] := rfl
  rw [h1] at h
  rw [h2]
  cases hd : s.data.reverse with
  | nil => rw [hd] at h; exact absurd h (by decide)
  | cons c cs =>
    rw [hd] at h
    simp only [List.isPrefixOf, Bool.and_eq_true, beq_iff_eq] at h ⊢
    rw [← h.1]
    simp

/-- With an `'()'` suffix, `stripSpec` strips two characters and sets
`call_me = True`. -/
theorem stripSpec_parens (s : String) (h : pyEndsWith s "()" = true) :
    stripSpec s = (pyDropRight s 2, some true) := by
  unfold stripSpec
  rw [parens_not_py s h, h]
  rfl

/-- When the attribute table has every requested name, the extraction loop
returns the requested names in order, each paired with its attribute
value. -/
theorem getAttrs_map {α : Type} (m : PyModule α) (n : String) (l : List String)
    (f : String → α) (h : ∀ a ∈ l, m.attrs a = some (f a)) :
    getAttrs m n l = .ok (l.map fun a => (a, f a)) := by
  induction l with
  | nil => rfl
  | cons a t ih =>
    have ha : m.attrs a = some (f a) := h a (List.mem_cons_self a t)
    have ht : ∀ b ∈ t, m.attrs b = some (f b) := fun b hb => h b (List.mem_cons_of_mem a hb)
    unfold getAttrs
    rw [ha, ih ht]
    rfl

/-- An error result of the extraction loop pinpoints a requested name
missing from the attribute table. -/
theorem getAttrs_error {α : Type} (m : PyModule α) (n : String) (l : List String)
    (e : PyError) (h : getAttrs m n l = .error e) :
    ∃ a ∈ l, m.attrs a = none ∧ e = .attributeError n a := by
  induction l with
  | nil => exact absurd h (by unfold getAttrs; intro hc; cases hc)
  | cons a t ih =>
    unfold getAttrs at h
    cases ha : m.attrs a with
    | none =>
      rw [ha] at h
      refine ⟨a, List.mem_cons_self a t, ha, ?_⟩
      cases h
      rfl
    | some v =>
      rw [ha] at h
      cases ht : getAttrs m n t with
      | ok l' => rw [ht] at h; cases h
      | error e' =>
        rw [ht] at h
        cases h
        obtain ⟨b, hb, hnone, he⟩ := ih ht
        exact ⟨b, List.mem_cons_of_mem a hb, hnone, he⟩

/-- Claim C2 counterexample: the specifier `"m"` imports successfully in
`envBadAll`, whose module lists `"x"` in `__all__` without defining it; the
`AttributeError` raised while extracting the attributes escapes
`extract_objs` instead of being converted into an empty mapping. -/
theorem extract_objs_raises_cex :
    extract_objs envBadAll "m" = .error (.attributeError "m" "x") := by
  rfl

/-- Claim C2 (amended): the only way `extract_objs` lets an exception escape
is the attribute-extraction loop that runs after a successful import, when a
name of the effective attribute list (`__all__`, or the non-underscore
`dir()` names) is missing from the module; every failure of the import
itself, of the fallback attribute resolution, and of the invocation is
caught and converted into an empty mapping. -/
theorem extract_objs_error_source (α : Type) (env : PyEnv α) (s : String)
    (e : PyError) (h : extract_objs env s = .error e) :
    ∃ m, env.modules (stripSpec s).1 = .ok m ∧
      ∃ a ∈ effectiveAll m, m.attrs a = none ∧ e = .attributeError (stripSpec s).1 a := by
  unfold extract_objs at h
  split at h
  · rename_i m hm
    obtain ⟨a, ha, hnone, he⟩ := getAttrs_error m (stripSpec s).1 (effectiveAll m) e h
    exact ⟨m, hm, a, ha, hnone, he⟩
  · split at h <;> (try split at h) <;> (try split at h) <;> cases h
  · cases h

/-- Claim C2 witness: the amended theorem applied at the concrete failing
input locates the missing attribute. -/
theorem extract_objs_error_source_witness :
    ∃ m, envBadAll.modules (stripSpec "m").1 = .ok m ∧
      ∃ a ∈ effectiveAll m, m.attrs a = none ∧
        (PyError.attributeError "m" "x") = .attributeError (stripSpec "m").1 a :=
  extract_objs_error_source Nat envBadAll "m" (.attributeError "m" "x") (by rfl)

/-- First component of `stripSpec` on a `'()'` specifier. -/
theorem stripSpec_parens_fst (s : String) (h : pyEndsWith s "()" = true) :
    (stripSpec s).1 = pyDropRight s 2 := by
  rw [stripSpec_parens s h]

/-- Second component of `stripSpec` on a `'()'` specifier. -/
theorem stripSpec_parens_snd (s : String) (h : pyEndsWith s "()" = true) :
    (stripSpec s).2 = some true := by
  rw [stripSpec_parens s h]

/-- Claim C4: for a specifier with the `'()'` invocation marker whose
stripped path fails to import (with an `ImportError`), `extract_objs`
resolves the stripped path through the attribute fallback `find_object`,
calls the resolved object with no arguments, and binds the call's return
value `r` — not the object itself — under the object's base name, the last
dotted component of the stripped path. -/
theorem extract_objs_call_fallback (α : Type) (env : PyEnv α) (s msg : String)
    (obj r : α)
    (h1 : pyEndsWith s "()" = true)
    (h2 : env.modules (pyDropRight s 2) = .error (.importError msg))
    (h3 : find_object env (pyDropRight s 2) = .ok obj)
    (h4 : env.call obj = .ok r) :
    extract_objs env s = .ok [((splitDot (pyDropRight s 2)).getLastD "", r)] := by
  unfold extract_objs
  simp only [stripSpec_parens_fst s h1, stripSpec_parens_snd s h1, h2, h3, h4]

/-- Claim C4 witness: `"pkg.mod.thing()"`, where `pkg.mod.thing` is not an
importable module but `pkg.mod` exposes the callable `thing` (the object
`5`), resolves to the call's return value `6` bound under the base name
`thing`. -/
theorem extract_objs_call_fallback_witness :
    extract_objs envThing "pkg.mod.thing()" = .ok [("thing", 6)] := by
  have h := extract_objs_call_fallback Nat envThing "pkg.mod.thing()"
    "pkg.mod.thing" 5 6 (by rfl) (by rfl) (by rfl) (by rfl)
  exact h

/-- Claim C5: for an importable module specifier, `extract_objs` returns
exactly the names listed in the module's `__all__` when present, each
mapped to the module attribute of that name (not invoked); when `__all__`
is absent it returns every `dir()` attribute whose name does not start
with an underscore. -/
theorem extract_objs_module_attrs (α : Type) (env : PyEnv α) (s : String)
    (m : PyModule α) (him : env.modules (stripSpec s).1 = .ok m) :
    (∀ (l : List String) (f : String → α), m.all = some l →
      (∀ a ∈ l, m.attrs a = some (f a)) →
      extract_objs env s = .ok (l.map fun a => (a, f a)))
    ∧ (∀ (f : String → α), m.all = none →
      (∀ a ∈ m.dirNames.filter (fun a => a.front ≠ '_'), m.attrs a = some (f a)) →
      extract_objs env s =
        .ok ((m.dirNames.filter (fun a => a.front ≠ '_')).map fun a => (a, f a))) := by
  constructor
  · intro l f hall hattrs
    unfold extract_objs
    simp only [him]
    have heff : effectiveAll m = l := by unfold effectiveAll; rw [hall]
    rw [heff]
    exact getAttrs_map m (stripSpec s).1 l f hattrs
  · intro f hall hattrs
    unfold extract_objs
    simp only [him]
    have heff : effectiveAll m = m.dirNames.filter (fun a => a.front ≠ '_') := by
      unfold effectiveAll; rw [hall]
    rw [heff]
    exact getAttrs_map m (stripSpec s).1 _ f hattrs

/-- Claim C5 witness: `pkg.mod` defines `__all__ = ["x"]` along with public
attributes `x` and `y`; resolution returns exactly `x`. -/
theorem extract_objs_module_attrs_witness :
    extract_objs envPkgMod "pkg.mod" = .ok [("x", 1)] := by
  exact (extract_objs_module_attrs Nat envPkgMod "pkg.mod" mPkgMod (by rfl)).1
    ["x"] (fun _ => 1) rfl (by decide)

/-- Claim C10: when a specifier carries the `'()'` invocation marker but its
stripped remainder imports successfully as a module, `extract_objs` ignores
the marker entirely: it returns the module's attributes un-invoked exactly
as for a plain module specifier (the result does not depend on the
environment's call behaviour at all), and the `.py` strip and the `'()'`
strip are mutually exclusive — a specifier ending in `.py` never has
`call_me = True`. -/
theorem extract_objs_marker_ignored (α : Type) (env : PyEnv α) (s : String)
    (m : PyModule α)
    (h1 : pyEndsWith s "()" = true)
    (h2 : env.modules (pyDropRight s 2) = .ok m) :
    extract_objs env s = getAttrs m (pyDropRight s 2) (effectiveAll m)
    ∧ (∀ call' : α → Except PyError α,
        extract_objs ⟨env.modules, call', env.evalName⟩ s = extract_objs env s)
    ∧ (∀ t : String, pyEndsWith t ".py" = true → (stripSpec t).2 ≠ some true) := by
  have hfst := stripSpec_parens_fst s h1
  refine ⟨?_, ?_, ?_⟩
  · unfold extract_objs
    simp only [hfst, h2]
  · intro call'
    unfold extract_objs
    simp only [hfst, h2]
  · intro t ht hc
    unfold stripSpec at hc
    rw [ht] at hc
    simp at hc

/-- Claim C10 witness: `"pkg.mod()"` with `pkg.mod` importable behaves
exactly like `"pkg.mod"`: the `__all__` entry `x` is returned un-invoked
(under `envPkgMod.call`, invoking never changes an object into `1`, yet
the value bound is the attribute itself). -/
theorem extract_objs_marker_ignored_witness :
    extract_objs envPkgMod "pkg.mod()" = .ok [("x", 1)] := by
  have h := (extract_objs_marker_ignored Nat envPkgMod "pkg.mod()" mPkgMod
    (by rfl) (by rfl)).1
  rw [h]
  rfl

/-- A list sorted by non-strict key order whose keys are distinct is sorted
by strict key order. -/
theorem sorted_key_strict {α : Type} (l : List (String × α))
    (hs : l.Sorted (fun p q : String × α => p.1 ≤ q.1))
    (hn : (l.map Prod.fst).Nodup) :
    l.Sorted (fun p q : String × α => p.1 < q.1) := by
  have hne : l.Pairwise (fun p q : String × α => p.1 ≠ q.1) :=
    List.pairwise_map.mp hn
  exact List.Pairwise.imp₂ (fun p q hle hneq => lt_of_le_of_ne hle hneq) hs hne

/-- Sorting by key is invariant under permutation of the items, provided the
keys are distinct. -/
theorem sortByKey_perm_invariant {α : Type} (l₁ l₂ : List (String × α))
    (hn : (l₁.map Prod.fst).Nodup) (hp : l₁.Perm l₂) :
    sortByKey l₁ = sortByKey l₂ := by
  have hps₁ : (sortByKey l₁).Perm l₁ := List.perm_insertionSort _ l₁
  have hps₂ : (sortByKey l₂).Perm l₂ := List.perm_insertionSort _ l₂
  have hperm : (sortByKey l₁).Perm (sortByKey l₂) :=
    hps₁.trans (hp.trans hps₂.symm)
  have hs₁ := List.sorted_insertionSort (fun p q : String × α => p.1 ≤ q.1) l₁
  have hs₂ := List.sorted_insertionSort (fun p q : String × α => p.1 ≤ q.1) l₂
  have hn₂ : (l₂.map Prod.fst).Nodup := ((hp.map Prod.fst).nodup_iff).mp hn
  have hn₁' : ((sortByKey l₁).map Prod.fst).Nodup :=
    ((hps₁.map Prod.fst).nodup_iff).mpr hn
  have hn₂' : ((sortByKey l₂).map Prod.fst).Nodup :=
    ((hps₂.map Prod.fst).nodup_iff).mpr hn₂
  haveI : IsAntisymm (String × α) (fun p q : String × α => p.1 < q.1) :=
    ⟨fun _ _ h₁ h₂ => absurd h₂ (lt_asymm h₁)⟩
  exact List.eq_of_perm_of_sorted hperm
    (sorted_key_strict _ hs₁ hn₁') (sorted_key_strict _ hs₂ hn₂')

/-- Assigning a fresh key appends the binding at the end of the
`__dict__`. -/
theorem setAttr_fresh {α : Type} (ns : List (String × α)) (k : String) (v : α)
    (h : k ∉ ns.map Prod.fst) : setAttr ns k v = ns ++ [(k, v)] := by
  induction ns with
  | nil => rfl
  | cons p rest ih =>
    have hk : p.1 ≠ k := by
      intro hc
      exact h (by rw [← hc]; exact List.mem_cons_self _ _)
    have hrest : k ∉ rest.map Prod.fst := by
      intro hc
      exact h (List.mem_cons_of_mem _ hc)
    cases p with
    | mk k' v' =>
      unfold setAttr
      rw [if_neg hk, ih hrest]
      rfl

/-- Building a namespace from distinct-key assignments reproduces the
assignment list itself. -/
theorem buildNs_nodup {α : Type} (l : List (String × α))
    (hn : (l.map Prod.fst).Nodup) : buildNs l = l := by
  have aux : ∀ (t acc : List (String × α)),
      ((acc ++ t).map Prod.fst).Nodup →
      t.foldl (fun ns p => setAttr ns p.1 p.2) acc = acc ++ t := by
    intro t
    induction t with
    | nil => intro acc h; simp
    | cons p rest ih =>
      intro acc h
      have hfresh : p.1 ∉ acc.map Prod.fst := by
        rw [List.map_append] at h
        rcases List.nodup_append.mp h with ⟨_, _, hdisj⟩
        intro hc
        exact hdisj hc (by exact List.mem_cons_self _ _)
      have hstep : setAttr acc p.1 p.2 = acc ++ [p] := by
        rw [setAttr_fresh acc p.1 p.2 hfresh]
      rw [List.foldl_cons, hstep]
      have hre : acc ++ p :: rest = (acc ++ [p]) ++ rest := by
        rw [List.append_cons]
      rw [hre] at h
      have := ih (acc ++ [p]) h
      rw [this, ← List.append_cons]
  have h0 := aux l [] (by simpa using hn)
  simpa [buildNs] using h0

/-- Claim C6: for every set of distinct-name bindings and every order of
performing the assignments, iterating the `IterableNamespace` yields the
bound values (not key-value pairs), sorted in ascending lexicographic order
of their keys, independent of the insertion order: two namespaces built
from any two insertion orders of the same bindings iterate identically,
the iteration is the value projection of the key-sorted items, the sorted
items are a permutation of the bindings, and their keys are in ascending
order. -/
theorem iterable_namespace_sorted (α : Type) (l₁ l₂ : List (String × α))
    (hn : (l₁.map Prod.fst).Nodup) (hp : l₁.Perm l₂) :
    IterableNamespace.iter (buildNs l₁) = IterableNamespace.iter (buildNs l₂)
    ∧ IterableNamespace.iter (buildNs l₁) = (sortByKey l₁).map Prod.snd
    ∧ (sortByKey l₁).Perm l₁
    ∧ ((sortByKey l₁).map Prod.fst).Sorted (· ≤ ·) := by
  have hn₂ : (l₂.map Prod.fst).Nodup := ((hp.map Prod.fst).nodup_iff).mp hn
  rw [buildNs_nodup l₁ hn, buildNs_nodup l₂ hn₂]
  refine ⟨?_, rfl, List.perm_insertionSort _ l₁, ?_⟩
  · unfold IterableNamespace.iter
    rw [sortByKey_perm_invariant l₁ l₂ hn hp]
  · have hs := List.sorted_insertionSort (fun p q : String × α => p.1 ≤ q.1) l₁
    exact List.pairwise_map.mpr hs

/-- Claim C6 witness: bindings installed under names `b`, `a`, `c` (in that
order) iterate as the values for `a`, `b`, `c`, and any other insertion
order gives the same iteration. -/
theorem iterable_namespace_sorted_witness :
    IterableNamespace.iter (buildNs [("b", 10), ("a", 20), ("c", 30)])
      = IterableNamespace.iter (buildNs [("a", 20), ("c", 30), ("b", 10)])
    ∧ IterableNamespace.iter (buildNs [("b", 10), ("a", 20), ("c", 30)])
      = (sortByKey [("b", 10), ("a", 20), ("c", 30)]).map Prod.snd
    ∧ (sortByKey [("b", 10), ("a", 20), ("c", 30)]).Perm
        [("b", 10), ("a", 20), ("c", 30)]
    ∧ ((sortByKey [("b", (10 : Nat)), ("a", 20), ("c", 30)]).map Prod.fst).Sorted
        (· ≤ ·) := by
  exact iterable_namespace_sorted Nat [("b", 10), ("a", 20), ("c", 30)]
    [("a", 20), ("c", 30), ("b", 10)] (by decide) (by decide)
